import Mathlib

set_option maxRecDepth 8000

/-!
# Verification of the solar-eclipse computation core

Shallow embedding of the repository's Python modules and proofs of the
specification's claims about them.

* `pedatetime.py` — calendar arithmetic with the Gregorian-cutover rule
  (`timedelta`, `datetime`, `normalize`, `adjust_gregorian`, the
  single-unit steppers and their `n`-times variants, `+`/`-`).
* `psefinder.py` — one iteration of the coarse eclipse-search loop.
* `psecentral.py` — gamma classification thresholds.
* `psegam.py`, `psebessel.py`, `psestartendtime.py`,
  `psecentralcoords.py` / `pcentercoords.py` — real-valued geometry,
  modelled over `ℝ` (Python floats idealised as real numbers).

Python `while` loops are embedded as structurally recursive functions on
an explicit iteration bound (`fuel`); at every call site the bound is
computed from the state and dominates the number of iterations the
Python loop performs on the inputs our theorems quantify over, so on
that domain the embedding agrees with the source exactly.
-/

namespace SolarEclipse

/-! ## pedatetime.py : timedelta -/

/-- `pedatetime.timedelta`: a duration stored as a total number of
seconds, built from (days, hours, minutes, seconds). -/
structure timedelta where
  total_seconds : Int
deriving DecidableEq, Repr

/-- `timedelta.__init__`: `days*86400 + hours*3600 + minutes*60 + seconds`. -/
def timedelta.make (days hours minutes seconds : Int) : timedelta :=
  ⟨days * 86400 + hours * 3600 + minutes * 60 + seconds⟩

/-- `timedelta.__neg__`. -/
def timedelta.neg (td : timedelta) : timedelta :=
  ⟨-td.total_seconds⟩

/-! ## pedatetime.py : max_day_in_month -/

/-- `pedatetime.max_day_in_month`: days in a month, 0 when the month is
out of range, with the leap-year adjustment for February.  Uses `%` as
Python does (nonnegative remainder for a positive divisor). -/
def max_day_in_month (year month : Int) : Int :=
  if month < 1 ∨ 12 < month then 0
  else if month = 2 then
    if year % 4 = 0 ∧ (year % 100 ≠ 0 ∨ year % 400 = 0) then 29 else 28
  else if month = 1 ∨ month = 3 ∨ month = 5 ∨ month = 7 ∨ month = 8 ∨
          month = 10 ∨ month = 12 then 31
  else 30

/-! ## pedatetime.py : datetime -/

/-- `pedatetime.datetime`: naive calendar instant with integer fields. -/
structure datetime where
  year : Int
  month : Int
  day : Int
  hour : Int
  minute : Int
  second : Int
deriving DecidableEq, Repr

/-- `while self.second < 0: second += 60; minute -= 1`. -/
def normSecBorrow (fuel : Nat) : datetime → datetime
  | ⟨y, mo, dy, hr, mi, s⟩ =>
    if s < 0 then
      match fuel with
      | 0 => ⟨y, mo, dy, hr, mi, s⟩
      | f + 1 => normSecBorrow f ⟨y, mo, dy, hr, mi - 1, s + 60⟩
    else ⟨y, mo, dy, hr, mi, s⟩

/-- `while self.second > 59: second -= 60; minute += 1`. -/
def normSecCarry (fuel : Nat) : datetime → datetime
  | ⟨y, mo, dy, hr, mi, s⟩ =>
    if 59 < s then
      match fuel with
      | 0 => ⟨y, mo, dy, hr, mi, s⟩
      | f + 1 => normSecCarry f ⟨y, mo, dy, hr, mi + 1, s - 60⟩
    else ⟨y, mo, dy, hr, mi, s⟩

/-- `while self.minute < 0: minute += 60; hour -= 1`. -/
def normMinBorrow (fuel : Nat) : datetime → datetime
  | ⟨y, mo, dy, hr, mi, s⟩ =>
    if mi < 0 then
      match fuel with
      | 0 => ⟨y, mo, dy, hr, mi, s⟩
      | f + 1 => normMinBorrow f ⟨y, mo, dy, hr - 1, mi + 60, s⟩
    else ⟨y, mo, dy, hr, mi, s⟩

/-- `while self.minute > 59: minute -= 60; hour += 1`. -/
def normMinCarry (fuel : Nat) : datetime → datetime
  | ⟨y, mo, dy, hr, mi, s⟩ =>
    if 59 < mi then
      match fuel with
      | 0 => ⟨y, mo, dy, hr, mi, s⟩
      | f + 1 => normMinCarry f ⟨y, mo, dy, hr + 1, mi - 60, s⟩
    else ⟨y, mo, dy, hr, mi, s⟩

/-- `while self.hour < 0: hour += 24; day -= 1`. -/
def normHourBorrow (fuel : Nat) : datetime → datetime
  | ⟨y, mo, dy, hr, mi, s⟩ =>
    if hr < 0 then
      match fuel with
      | 0 => ⟨y, mo, dy, hr, mi, s⟩
      | f + 1 => normHourBorrow f ⟨y, mo, dy - 1, hr + 24, mi, s⟩
    else ⟨y, mo, dy, hr, mi, s⟩

/-- `while self.hour > 23: hour -= 24; day += 1`. -/
def normHourCarry (fuel : Nat) : datetime → datetime
  | ⟨y, mo, dy, hr, mi, s⟩ =>
    if 23 < hr then
      match fuel with
      | 0 => ⟨y, mo, dy, hr, mi, s⟩
      | f + 1 => normHourCarry f ⟨y, mo, dy + 1, hr - 24, mi, s⟩
    else ⟨y, mo, dy, hr, mi, s⟩

/-- `while self.day < 1: month -= 1 (wrapping to December of the previous
year); day += max_day_in_month(year, month)`. -/
def normDayBorrow (fuel : Nat) : datetime → datetime
  | ⟨y, mo, dy, hr, mi, s⟩ =>
    if dy < 1 then
      match fuel with
      | 0 => ⟨y, mo, dy, hr, mi, s⟩
      | f + 1 =>
          let m2 := if mo - 1 < 1 then 12 else mo - 1
          let y2 := if mo - 1 < 1 then y - 1 else y
          normDayBorrow f ⟨y2, m2, dy + max_day_in_month y2 m2, hr, mi, s⟩
    else ⟨y, mo, dy, hr, mi, s⟩

/-- `while self.day > max_day_in_month(year, month): day -= max_day; month += 1
(wrapping to January of the next year)`. -/
def normDayCarry (fuel : Nat) : datetime → datetime
  | ⟨y, mo, dy, hr, mi, s⟩ =>
    if max_day_in_month y mo < dy then
      match fuel with
      | 0 => ⟨y, mo, dy, hr, mi, s⟩
      | f + 1 =>
          let m2 := if 12 < mo + 1 then 1 else mo + 1
          let y2 := if 12 < mo + 1 then y + 1 else y
          normDayCarry f ⟨y2, m2, dy - max_day_in_month y mo, hr, mi, s⟩
    else ⟨y, mo, dy, hr, mi, s⟩

/-- `while self.month < 1: month += 12; year -= 1`. -/
def normMonthBorrow (fuel : Nat) : datetime → datetime
  | ⟨y, mo, dy, hr, mi, s⟩ =>
    if mo < 1 then
      match fuel with
      | 0 => ⟨y, mo, dy, hr, mi, s⟩
      | f + 1 => normMonthBorrow f ⟨y - 1, mo + 12, dy, hr, mi, s⟩
    else ⟨y, mo, dy, hr, mi, s⟩

/-- `while self.month > 12: month -= 12; year += 1`. -/
def normMonthCarry (fuel : Nat) : datetime → datetime
  | ⟨y, mo, dy, hr, mi, s⟩ =>
    if 12 < mo then
      match fuel with
      | 0 => ⟨y, mo, dy, hr, mi, s⟩
      | f + 1 => normMonthCarry f ⟨y + 1, mo - 12, dy, hr, mi, s⟩
    else ⟨y, mo, dy, hr, mi, s⟩

/-- `datetime.normalize`: carry/borrow propagation in the source's fixed
order — seconds, minutes, hours, days, months.  Each loop gets an
iteration bound computed from the state it starts with. -/
def datetime.normalize (d : datetime) : datetime :=
  let d1 := normSecBorrow (-d.second).toNat d
  let d2 := normSecCarry d1.second.toNat d1
  let d3 := normMinBorrow (-d2.minute).toNat d2
  let d4 := normMinCarry d3.minute.toNat d3
  let d5 := normHourBorrow (-d4.hour).toNat d4
  let d6 := normHourCarry d5.hour.toNat d5
  let d7 := normDayBorrow ((1 - d6.day).toNat + 13) d6
  let d8 := normDayCarry (d7.day.toNat + 13) d7
  let d9 := normMonthBorrow (1 - d8.month).toNat d8
  normMonthCarry d9.month.toNat d9

/-- `datetime.adjust_gregorian(adding)`: day 5–14 of October 1582 is
mapped to day 15 when moving forward and to day 4 when moving backward. -/
def datetime.adjust_gregorian : datetime → Bool → datetime
  | ⟨y, mo, dy, hr, mi, s⟩, adding =>
    if y = 1582 ∧ mo = 10 ∧ 5 ≤ dy ∧ dy ≤ 14 then
      if adding then ⟨y, mo, 15, hr, mi, s⟩ else ⟨y, mo, 4, hr, mi, s⟩
    else ⟨y, mo, dy, hr, mi, s⟩

/-- `datetime.add_second`. -/
def datetime.add_second (d : datetime) : datetime :=
  (datetime.normalize
      ⟨d.year, d.month, d.day, d.hour, d.minute, d.second + 1⟩).adjust_gregorian true

/-- `datetime.sub_second`. -/
def datetime.sub_second (d : datetime) : datetime :=
  (datetime.normalize
      ⟨d.year, d.month, d.day, d.hour, d.minute, d.second - 1⟩).adjust_gregorian false

/-- `datetime.add_minute`. -/
def datetime.add_minute (d : datetime) : datetime :=
  (datetime.normalize
      ⟨d.year, d.month, d.day, d.hour, d.minute + 1, d.second⟩).adjust_gregorian true

/-- `datetime.sub_minute`. -/
def datetime.sub_minute (d : datetime) : datetime :=
  (datetime.normalize
      ⟨d.year, d.month, d.day, d.hour, d.minute - 1, d.second⟩).adjust_gregorian false

/-- `datetime.add_hour`. -/
def datetime.add_hour (d : datetime) : datetime :=
  (datetime.normalize
      ⟨d.year, d.month, d.day, d.hour + 1, d.minute, d.second⟩).adjust_gregorian true

/-- `datetime.sub_hour`. -/
def datetime.sub_hour (d : datetime) : datetime :=
  (datetime.normalize
      ⟨d.year, d.month, d.day, d.hour - 1, d.minute, d.second⟩).adjust_gregorian false

/-- `datetime.add_day`. -/
def datetime.add_day (d : datetime) : datetime :=
  (datetime.normalize
      ⟨d.year, d.month, d.day + 1, d.hour, d.minute, d.second⟩).adjust_gregorian true

/-- `datetime.sub_day`. -/
def datetime.sub_day (d : datetime) : datetime :=
  (datetime.normalize
      ⟨d.year, d.month, d.day - 1, d.hour, d.minute, d.second⟩).adjust_gregorian false

/-- Body of `for _ in range(n): self.add_second()`. -/
def addSecondsLoop : Nat → datetime → datetime
  | 0, d => d
  | n + 1, d => addSecondsLoop n d.add_second

/-- Body of `for _ in range(n): self.sub_second()`. -/
def subSecondsLoop : Nat → datetime → datetime
  | 0, d => d
  | n + 1, d => subSecondsLoop n d.sub_second

/-- Body of `for _ in range(n): self.add_minute()`. -/
def addMinutesLoop : Nat → datetime → datetime
  | 0, d => d
  | n + 1, d => addMinutesLoop n d.add_minute

/-- Body of `for _ in range(n): self.add_hour()`. -/
def addHoursLoop : Nat → datetime → datetime
  | 0, d => d
  | n + 1, d => addHoursLoop n d.add_hour

/-- Body of `for _ in range(n): self.add_day()`. -/
def addDaysLoop : Nat → datetime → datetime
  | 0, d => d
  | n + 1, d => addDaysLoop n d.add_day

/-- `datetime.add_seconds(n)`: `range(n)` is empty for `n ≤ 0`, so the
loop runs `n.toNat` times. -/
def datetime.add_seconds (d : datetime) (n : Int) : datetime :=
  addSecondsLoop n.toNat d

/-- `datetime.sub_seconds(n)`. -/
def datetime.sub_seconds (d : datetime) (n : Int) : datetime :=
  subSecondsLoop n.toNat d

/-- `datetime.add_minutes(n)`. -/
def datetime.add_minutes (d : datetime) (n : Int) : datetime :=
  addMinutesLoop n.toNat d

/-- `datetime.add_hours(n)`. -/
def datetime.add_hours (d : datetime) (n : Int) : datetime :=
  addHoursLoop n.toNat d

/-- `datetime.add_days(n)`. -/
def datetime.add_days (d : datetime) (n : Int) : datetime :=
  addDaysLoop n.toNat d

/-- `datetime.__add__(td)`: branch on the sign of `td.total_seconds` and
dispatch to `add_seconds` or `sub_seconds`. -/
def datetime.addTd (d : datetime) (td : timedelta) : datetime :=
  if 0 ≤ td.total_seconds then d.add_seconds td.total_seconds
  else d.sub_seconds (-td.total_seconds)

/-- `datetime.__sub__(td)` (timedelta case): `self + (-td)`. -/
def datetime.subTd (d : datetime) (td : timedelta) : datetime :=
  d.addTd td.neg

/-- The ten days erased by the Gregorian reform: day 5–14 of October 1582. -/
def InGap (d : datetime) : Prop :=
  d.year = 1582 ∧ d.month = 10 ∧ 5 ≤ d.day ∧ d.day ≤ 14

instance (d : datetime) : Decidable (InGap d) := by
  unfold InGap; infer_instance

/-- A normalized instant: every field in canonical range, the day valid
for its month, and not inside the cutover gap. -/
def ValidDT (d : datetime) : Prop :=
  0 ≤ d.second ∧ d.second ≤ 59 ∧
  0 ≤ d.minute ∧ d.minute ≤ 59 ∧
  0 ≤ d.hour ∧ d.hour ≤ 23 ∧
  1 ≤ d.month ∧ d.month ≤ 12 ∧
  1 ≤ d.day ∧ d.day ≤ max_day_in_month d.year d.month ∧
  ¬ InGap d

instance (d : datetime) : Decidable (ValidDT d) := by
  unfold ValidDT; infer_instance

/-! ## Calendar lemmas -/

theorem maxDay_ge (y m : Int) (h1 : 1 ≤ m) (h2 : m ≤ 12) :
    28 ≤ max_day_in_month y m := by
  unfold max_day_in_month
  split_ifs <;> omega

theorem maxDay_12 (y : Int) : max_day_in_month y 12 = 31 := by
  unfold max_day_in_month
  split_ifs <;> omega

theorem secBorrow_noop (f : Nat) (y mo dy hr mi s : Int) (h : 0 ≤ s) :
    normSecBorrow f ⟨y, mo, dy, hr, mi, s⟩ = ⟨y, mo, dy, hr, mi, s⟩ := by
  cases f <;> (rw [normSecBorrow]; exact if_neg (by omega))

theorem secCarry_noop (f : Nat) (y mo dy hr mi s : Int) (h : s ≤ 59) :
    normSecCarry f ⟨y, mo, dy, hr, mi, s⟩ = ⟨y, mo, dy, hr, mi, s⟩ := by
  cases f <;> (rw [normSecCarry]; exact if_neg (by omega))

theorem minBorrow_noop (f : Nat) (y mo dy hr mi s : Int) (h : 0 ≤ mi) :
    normMinBorrow f ⟨y, mo, dy, hr, mi, s⟩ = ⟨y, mo, dy, hr, mi, s⟩ := by
  cases f <;> (rw [normMinBorrow]; exact if_neg (by omega))

theorem minCarry_noop (f : Nat) (y mo dy hr mi s : Int) (h : mi ≤ 59) :
    normMinCarry f ⟨y, mo, dy, hr, mi, s⟩ = ⟨y, mo, dy, hr, mi, s⟩ := by
  cases f <;> (rw [normMinCarry]; exact if_neg (by omega))

theorem hourBorrow_noop (f : Nat) (y mo dy hr mi s : Int) (h : 0 ≤ hr) :
    normHourBorrow f ⟨y, mo, dy, hr, mi, s⟩ = ⟨y, mo, dy, hr, mi, s⟩ := by
  cases f <;> (rw [normHourBorrow]; exact if_neg (by omega))

theorem hourCarry_noop (f : Nat) (y mo dy hr mi s : Int) (h : hr ≤ 23) :
    normHourCarry f ⟨y, mo, dy, hr, mi, s⟩ = ⟨y, mo, dy, hr, mi, s⟩ := by
  cases f <;> (rw [normHourCarry]; exact if_neg (by omega))

theorem dayBorrow_noop (f : Nat) (y mo dy hr mi s : Int) (h : 1 ≤ dy) :
    normDayBorrow f ⟨y, mo, dy, hr, mi, s⟩ = ⟨y, mo, dy, hr, mi, s⟩ := by
  cases f <;> (rw [normDayBorrow]; exact if_neg (by omega))

theorem dayCarry_noop (f : Nat) (y mo dy hr mi s : Int)
    (h : dy ≤ max_day_in_month y mo) :
    normDayCarry f ⟨y, mo, dy, hr, mi, s⟩ = ⟨y, mo, dy, hr, mi, s⟩ := by
  cases f <;> (rw [normDayCarry]; exact if_neg (by omega))

theorem monthBorrow_noop (f : Nat) (y mo dy hr mi s : Int) (h : 1 ≤ mo) :
    normMonthBorrow f ⟨y, mo, dy, hr, mi, s⟩ = ⟨y, mo, dy, hr, mi, s⟩ := by
  cases f <;> (rw [normMonthBorrow]; exact if_neg (by omega))

theorem monthCarry_noop (f : Nat) (y mo dy hr mi s : Int) (h : mo ≤ 12) :
    normMonthCarry f ⟨y, mo, dy, hr, mi, s⟩ = ⟨y, mo, dy, hr, mi, s⟩ := by
  cases f <;> (rw [normMonthCarry]; exact if_neg (by omega))

theorem secCarry_once (f : Nat) (hf : f ≠ 0) (y mo dy hr mi s : Int)
    (h : s = 60) :
    normSecCarry f ⟨y, mo, dy, hr, mi, s⟩ = ⟨y, mo, dy, hr, mi + 1, 0⟩ := by
  subst h
  obtain ⟨g, rfl⟩ := Nat.exists_eq_succ_of_ne_zero hf
  rw [normSecCarry, if_pos (by omega)]
  rw [show (60 : Int) - 60 = 0 by norm_num]
  exact secCarry_noop g y mo dy hr (mi + 1) 0 (by omega)

theorem secBorrow_once (f : Nat) (hf : f ≠ 0) (y mo dy hr mi s : Int)
    (h : s = -1) :
    normSecBorrow f ⟨y, mo, dy, hr, mi, s⟩ = ⟨y, mo, dy, hr, mi - 1, 59⟩ := by
  subst h
  obtain ⟨g, rfl⟩ := Nat.exists_eq_succ_of_ne_zero hf
  rw [normSecBorrow, if_pos (by omega)]
  rw [show (-1 : Int) + 60 = 59 by norm_num]
  exact secBorrow_noop g y mo dy hr (mi - 1) 59 (by omega)

theorem minCarry_once (f : Nat) (hf : f ≠ 0) (y mo dy hr mi s : Int)
    (h : mi = 60) :
    normMinCarry f ⟨y, mo, dy, hr, mi, s⟩ = ⟨y, mo, dy, hr + 1, 0, s⟩ := by
  subst h
  obtain ⟨g, rfl⟩ := Nat.exists_eq_succ_of_ne_zero hf
  rw [normMinCarry, if_pos (by omega)]
  rw [show (60 : Int) - 60 = 0 by norm_num]
  exact minCarry_noop g y mo dy (hr + 1) 0 s (by omega)

theorem minBorrow_once (f : Nat) (hf : f ≠ 0) (y mo dy hr mi s : Int)
    (h : mi = -1) :
    normMinBorrow f ⟨y, mo, dy, hr, mi, s⟩ = ⟨y, mo, dy, hr - 1, 59, s⟩ := by
  subst h
  obtain ⟨g, rfl⟩ := Nat.exists_eq_succ_of_ne_zero hf
  rw [normMinBorrow, if_pos (by omega)]
  rw [show (-1 : Int) + 60 = 59 by norm_num]
  exact minBorrow_noop g y mo dy (hr - 1) 59 s (by omega)

theorem hourCarry_once (f : Nat) (hf : f ≠ 0) (y mo dy hr mi s : Int)
    (h : hr = 24) :
    normHourCarry f ⟨y, mo, dy, hr, mi, s⟩ = ⟨y, mo, dy + 1, 0, mi, s⟩ := by
  subst h
  obtain ⟨g, rfl⟩ := Nat.exists_eq_succ_of_ne_zero hf
  rw [normHourCarry, if_pos (by omega)]
  rw [show (24 : Int) - 24 = 0 by norm_num]
  exact hourCarry_noop g y mo (dy + 1) 0 mi s (by omega)

theorem hourBorrow_once (f : Nat) (hf : f ≠ 0) (y mo dy hr mi s : Int)
    (h : hr = -1) :
    normHourBorrow f ⟨y, mo, dy, hr, mi, s⟩ = ⟨y, mo, dy - 1, 23, mi, s⟩ := by
  subst h
  obtain ⟨g, rfl⟩ := Nat.exists_eq_succ_of_ne_zero hf
  rw [normHourBorrow, if_pos (by omega)]
  rw [show (-1 : Int) + 24 = 23 by norm_num]
  exact hourBorrow_noop g y mo (dy - 1) 23 mi s (by omega)

theorem dayCarry_once (f : Nat) (hf : f ≠ 0) (y mo dy hr mi s : Int)
    (h1 : 1 ≤ mo) (h2 : mo ≤ 12) (h : dy = max_day_in_month y mo + 1) :
    normDayCarry f ⟨y, mo, dy, hr, mi, s⟩ =
      if mo = 12 then ⟨y + 1, 1, 1, hr, mi, s⟩ else ⟨y, mo + 1, 1, hr, mi, s⟩ := by
  subst h
  obtain ⟨g, rfl⟩ := Nat.exists_eq_succ_of_ne_zero hf
  rw [normDayCarry, if_pos (by omega)]
  simp only [add_sub_cancel_left]
  by_cases hmo : mo = 12
  · subst hmo
    rw [if_pos rfl, if_pos (by omega : (12:Int) < 12 + 1), if_pos (by omega : (12:Int) < 12 + 1)]
    exact dayCarry_noop g (y + 1) 1 1 hr mi s
      (le_trans (by omega) (maxDay_ge (y + 1) 1 (by omega) (by omega)))
  · rw [if_neg hmo, if_neg (by omega : ¬ (12:Int) < mo + 1),
      if_neg (by omega : ¬ (12:Int) < mo + 1)]
    exact dayCarry_noop g y (mo + 1) 1 hr mi s
      (le_trans (by omega) (maxDay_ge y (mo + 1) (by omega) (by omega)))

theorem dayBorrow_once (f : Nat) (hf : f ≠ 0) (y mo dy hr mi s : Int)
    (h1 : 1 ≤ mo) (h2 : mo ≤ 12) (h : dy = 0) :
    normDayBorrow f ⟨y, mo, dy, hr, mi, s⟩ =
      if mo = 1 then ⟨y - 1, 12, max_day_in_month (y - 1) 12, hr, mi, s⟩
      else ⟨y, mo - 1, max_day_in_month y (mo - 1), hr, mi, s⟩ := by
  subst h
  obtain ⟨g, rfl⟩ := Nat.exists_eq_succ_of_ne_zero hf
  rw [normDayBorrow, if_pos (by omega)]
  by_cases hmo : mo = 1
  · subst hmo
    rw [if_pos rfl, if_pos (by omega : (1:Int) - 1 < 1), if_pos (by omega : (1:Int) - 1 < 1)]
    simp only [zero_add]
    exact dayBorrow_noop g (y - 1) 12 (max_day_in_month (y - 1) 12) hr mi s
      (le_trans (by omega) (maxDay_ge (y - 1) 12 (by omega) (by omega)))
  · rw [if_neg hmo, if_neg (by omega : ¬ mo - 1 < 1), if_neg (by omega : ¬ mo - 1 < 1)]
    simp only [zero_add]
    exact dayBorrow_noop g y (mo - 1) (max_day_in_month y (mo - 1)) hr mi s
      (le_trans (by omega) (maxDay_ge y (mo - 1) (by omega) (by omega)))

/-- Effect of `normalize` on a canonical instant whose second field was
just incremented (the interesting single-carry cascade). -/
theorem normalize_bump (y mo dy hr mi s : Int)
    (hs0 : 0 ≤ s) (hs1 : s ≤ 59) (hmi0 : 0 ≤ mi) (hmi1 : mi ≤ 59)
    (hh0 : 0 ≤ hr) (hh1 : hr ≤ 23) (hmo0 : 1 ≤ mo) (hmo1 : mo ≤ 12)
    (hd0 : 1 ≤ dy) (hd1 : dy ≤ max_day_in_month y mo) :
    datetime.normalize ⟨y, mo, dy, hr, mi, s + 1⟩ =
      if s ≤ 58 then ⟨y, mo, dy, hr, mi, s + 1⟩
      else if mi ≤ 58 then ⟨y, mo, dy, hr, mi + 1, 0⟩
      else if hr ≤ 22 then ⟨y, mo, dy, hr + 1, 0, 0⟩
      else if dy + 1 ≤ max_day_in_month y mo then ⟨y, mo, dy + 1, 0, 0, 0⟩
      else if mo ≤ 11 then ⟨y, mo + 1, 1, 0, 0, 0⟩
      else ⟨y + 1, 1, 1, 0, 0, 0⟩ := by
  by_cases hs : s ≤ 58
  · rw [if_pos hs]
    simp only [datetime.normalize]
    rw [secBorrow_noop _ y mo dy hr mi (s + 1) (by omega),
        secCarry_noop _ y mo dy hr mi (s + 1) (by omega),
        minBorrow_noop _ y mo dy hr mi (s + 1) (by omega),
        minCarry_noop _ y mo dy hr mi (s + 1) (by omega),
        hourBorrow_noop _ y mo dy hr mi (s + 1) (by omega),
        hourCarry_noop _ y mo dy hr mi (s + 1) (by omega),
        dayBorrow_noop _ y mo dy hr mi (s + 1) (by omega),
        dayCarry_noop _ y mo dy hr mi (s + 1) hd1,
        monthBorrow_noop _ y mo dy hr mi (s + 1) (by omega),
        monthCarry_noop _ y mo dy hr mi (s + 1) (by omega)]
  · have h59 : s = 59 := by omega
    subst h59
    rw [if_neg hs]
    by_cases hmi : mi ≤ 58
    · rw [if_pos hmi]
      simp only [datetime.normalize]
      rw [secBorrow_noop _ y mo dy hr mi (59 + 1) (by omega)]
      norm_num
      rw [secCarry_once (Int.toNat 60) (by norm_num) y mo dy hr mi 60 rfl]
      rw [minBorrow_noop _ y mo dy hr (mi + 1) 0 (by omega),
          minCarry_noop _ y mo dy hr (mi + 1) 0 (by omega),
          hourBorrow_noop _ y mo dy hr (mi + 1) 0 (by omega),
          hourCarry_noop _ y mo dy hr (mi + 1) 0 (by omega),
          dayBorrow_noop _ y mo dy hr (mi + 1) 0 (by omega),
          dayCarry_noop _ y mo dy hr (mi + 1) 0 hd1,
          monthBorrow_noop _ y mo dy hr (mi + 1) 0 (by omega),
          monthCarry_noop _ y mo dy hr (mi + 1) 0 (by omega)]
    · have hm59 : mi = 59 := by omega
      subst hm59
      rw [if_neg hmi]
      by_cases hhr : hr ≤ 22
      · rw [if_pos hhr]
        simp only [datetime.normalize]
        rw [secBorrow_noop _ y mo dy hr 59 (59 + 1) (by omega)]
        norm_num
        rw [secCarry_once (Int.toNat 60) (by norm_num) y mo dy hr 59 60 rfl]
        rw [minBorrow_noop _ y mo dy hr (59 + 1) 0 (by omega)]
        norm_num
        rw [minCarry_once (Int.toNat 60) (by norm_num) y mo dy hr 60 0 rfl]
        rw [hourBorrow_noop _ y mo dy (hr + 1) 0 0 (by omega),
            hourCarry_noop _ y mo dy (hr + 1) 0 0 (by omega),
            dayBorrow_noop _ y mo dy (hr + 1) 0 0 (by omega),
            dayCarry_noop _ y mo dy (hr + 1) 0 0 hd1,
            monthBorrow_noop _ y mo dy (hr + 1) 0 0 (by omega),
            monthCarry_noop _ y mo dy (hr + 1) 0 0 (by omega)]
      · have h23 : hr = 23 := by omega
        subst h23
        rw [if_neg hhr]
        simp only [datetime.normalize]
        rw [secBorrow_noop _ y mo dy 23 59 (59 + 1) (by omega)]
        norm_num
        rw [secCarry_once (Int.toNat 60) (by norm_num) y mo dy 23 59 60 rfl]
        rw [minBorrow_noop _ y mo dy 23 (59 + 1) 0 (by omega)]
        norm_num
        rw [minCarry_once (Int.toNat 60) (by norm_num) y mo dy 23 60 0 rfl]
        rw [hourBorrow_noop _ y mo dy (23 + 1) 0 0 (by omega)]
        norm_num
        rw [hourCarry_once (Int.toNat 24) (by norm_num) y mo dy 24 0 0 rfl]
        rw [dayBorrow_noop _ y mo (dy + 1) 0 0 0 (by omega)]
        by_cases hdy : dy + 1 ≤ max_day_in_month y mo
        · rw [if_pos hdy]
          rw [dayCarry_noop _ y mo (dy + 1) 0 0 0 hdy,
              monthBorrow_noop _ y mo (dy + 1) 0 0 0 (by omega),
              monthCarry_noop _ y mo (dy + 1) 0 0 0 (by omega)]
        · rw [if_neg hdy]
          norm_num
          rw [dayCarry_once ((dy + 1).toNat + 13) (by omega) y mo (dy + 1) 0 0 0
              hmo0 hmo1 (by omega)]
          by_cases hmo12 : mo = 12
          · subst hmo12
            rw [if_pos (show (12 : Int) = 12 from rfl),
                if_neg (show ¬ (12 : Int) ≤ 11 by norm_num)]
            rw [monthBorrow_noop _ (y + 1) 1 1 0 0 0 (by omega),
                monthCarry_noop _ (y + 1) 1 1 0 0 0 (by omega)]
          · rw [if_neg hmo12, if_pos (show mo ≤ 11 by omega)]
            rw [monthBorrow_noop _ y (mo + 1) 1 0 0 0 (by omega),
                monthCarry_noop _ y (mo + 1) 1 0 0 0 (by omega)]

/-- Effect of `normalize` on a canonical instant whose second field was
just decremented (the single-borrow cascade). -/
theorem normalize_drop (y mo dy hr mi s : Int)
    (hs0 : 0 ≤ s) (hs1 : s ≤ 59) (hmi0 : 0 ≤ mi) (hmi1 : mi ≤ 59)
    (hh0 : 0 ≤ hr) (hh1 : hr ≤ 23) (hmo0 : 1 ≤ mo) (hmo1 : mo ≤ 12)
    (hd0 : 1 ≤ dy) (hd1 : dy ≤ max_day_in_month y mo) :
    datetime.normalize ⟨y, mo, dy, hr, mi, s - 1⟩ =
      if 1 ≤ s then ⟨y, mo, dy, hr, mi, s - 1⟩
      else if 1 ≤ mi then ⟨y, mo, dy, hr, mi - 1, 59⟩
      else if 1 ≤ hr then ⟨y, mo, dy, hr - 1, 59, 59⟩
      else if 2 ≤ dy then ⟨y, mo, dy - 1, 23, 59, 59⟩
      else if 2 ≤ mo then ⟨y, mo - 1, max_day_in_month y (mo - 1), 23, 59, 59⟩
      else ⟨y - 1, 12, max_day_in_month (y - 1) 12, 23, 59, 59⟩ := by
  by_cases hs : 1 ≤ s
  · rw [if_pos hs]
    simp only [datetime.normalize]
    rw [secBorrow_noop _ y mo dy hr mi (s - 1) (by omega),
        secCarry_noop _ y mo dy hr mi (s - 1) (by omega),
        minBorrow_noop _ y mo dy hr mi (s - 1) (by omega),
        minCarry_noop _ y mo dy hr mi (s - 1) (by omega),
        hourBorrow_noop _ y mo dy hr mi (s - 1) (by omega),
        hourCarry_noop _ y mo dy hr mi (s - 1) (by omega),
        dayBorrow_noop _ y mo dy hr mi (s - 1) (by omega),
        dayCarry_noop _ y mo dy hr mi (s - 1) hd1,
        monthBorrow_noop _ y mo dy hr mi (s - 1) (by omega),
        monthCarry_noop _ y mo dy hr mi (s - 1) (by omega)]
  · have hz : s = 0 := by omega
    subst hz
    rw [if_neg hs]
    by_cases hmi : 1 ≤ mi
    · rw [if_pos hmi]
      simp only [datetime.normalize]
      norm_num
      rw [secBorrow_once 1 (by norm_num) y mo dy hr mi (-1) rfl]
      rw [secCarry_noop _ y mo dy hr (mi - 1) 59 (by omega),
          minBorrow_noop _ y mo dy hr (mi - 1) 59 (by omega),
          minCarry_noop _ y mo dy hr (mi - 1) 59 (by omega),
          hourBorrow_noop _ y mo dy hr (mi - 1) 59 (by omega),
          hourCarry_noop _ y mo dy hr (mi - 1) 59 (by omega),
          dayBorrow_noop _ y mo dy hr (mi - 1) 59 (by omega),
          dayCarry_noop _ y mo dy hr (mi - 1) 59 hd1,
          monthBorrow_noop _ y mo dy hr (mi - 1) 59 (by omega),
          monthCarry_noop _ y mo dy hr (mi - 1) 59 (by omega)]
    · have hmz : mi = 0 := by omega
      subst hmz
      rw [if_neg hmi]
      by_cases hhr : 1 ≤ hr
      · rw [if_pos hhr]
        simp only [datetime.normalize]
        norm_num
        rw [secBorrow_once 1 (by norm_num) y mo dy hr 0 (-1) rfl]
        rw [secCarry_noop _ y mo dy hr (0 - 1) 59 (by omega)]
        norm_num
        rw [minBorrow_once 1 (by norm_num) y mo dy hr (-1) 59 rfl]
        rw [minCarry_noop _ y mo dy (hr - 1) 59 59 (by omega),
            hourBorrow_noop _ y mo dy (hr - 1) 59 59 (by omega),
            hourCarry_noop _ y mo dy (hr - 1) 59 59 (by omega),
            dayBorrow_noop _ y mo dy (hr - 1) 59 59 (by omega),
            dayCarry_noop _ y mo dy (hr - 1) 59 59 hd1,
            monthBorrow_noop _ y mo dy (hr - 1) 59 59 (by omega),
            monthCarry_noop _ y mo dy (hr - 1) 59 59 (by omega)]
      · have hhz : hr = 0 := by omega
        subst hhz
        rw [if_neg hhr]
        simp only [datetime.normalize]
        norm_num
        rw [secBorrow_once 1 (by norm_num) y mo dy 0 0 (-1) rfl]
        rw [secCarry_noop _ y mo dy 0 (0 - 1) 59 (by omega)]
        norm_num
        rw [minBorrow_once 1 (by norm_num) y mo dy 0 (-1) 59 rfl]

        rw [minCarry_noop _ y mo dy (0 - 1) 59 59 (by omega)]
        norm_num
        rw [hourBorrow_once 1 (by norm_num) y mo dy (-1) 59 59 rfl]
        rw [hourCarry_noop _ y mo (dy - 1) 23 59 59 (by omega)]
        by_cases hdy : 2 ≤ dy
        · rw [if_pos hdy]
          rw [dayBorrow_noop _ y mo (dy - 1) 23 59 59 (by omega),
              dayCarry_noop _ y mo (dy - 1) 23 59 59 (by omega),
              monthBorrow_noop _ y mo (dy - 1) 23 59 59 (by omega),
              monthCarry_noop _ y mo (dy - 1) 23 59 59 (by omega)]
        · have hd1' : dy = 1 := by omega
          subst hd1'
          rw [if_neg hdy]
          norm_num
          rw [dayBorrow_once 14 (by norm_num) y mo 0 23 59 59
              hmo0 hmo1 rfl]
          by_cases hmo1' : mo = 1
          · subst hmo1'
            rw [if_pos (show (1 : Int) = 1 from rfl),
                if_neg (show ¬ (2 : Int) ≤ 1 by norm_num)]
            rw [dayCarry_noop _ (y - 1) 12 (max_day_in_month (y - 1) 12) 23 59 59 le_rfl,
                monthBorrow_noop _ (y - 1) 12 (max_day_in_month (y - 1) 12) 23 59 59 (by omega),
                monthCarry_noop _ (y - 1) 12 (max_day_in_month (y - 1) 12) 23 59 59 (by omega)]
          · rw [if_neg hmo1', if_pos (show (2 : Int) ≤ mo by omega)]
            rw [dayCarry_noop _ y (mo - 1) (max_day_in_month y (mo - 1)) 23 59 59 le_rfl,
                monthBorrow_noop _ y (mo - 1) (max_day_in_month y (mo - 1)) 23 59 59 (by omega),
                monthCarry_noop _ y (mo - 1) (max_day_in_month y (mo - 1)) 23 59 59 (by omega)]

theorem adjust_noop (adding : Bool) (y mo dy hr mi s : Int)
    (h : ¬(y = 1582 ∧ mo = 10 ∧ 5 ≤ dy ∧ dy ≤ 14)) :
    datetime.adjust_gregorian ⟨y, mo, dy, hr, mi, s⟩ adding = ⟨y, mo, dy, hr, mi, s⟩ := by
  rw [datetime.adjust_gregorian]
  exact if_neg h

theorem adjust_gap_true (y mo dy hr mi s : Int)
    (h : y = 1582 ∧ mo = 10 ∧ 5 ≤ dy ∧ dy ≤ 14) :
    datetime.adjust_gregorian ⟨y, mo, dy, hr, mi, s⟩ true = ⟨y, mo, 15, hr, mi, s⟩ := by
  rw [datetime.adjust_gregorian, if_pos h]
  rfl

theorem adjust_gap_false (y mo dy hr mi s : Int)
    (h : y = 1582 ∧ mo = 10 ∧ 5 ≤ dy ∧ dy ≤ 14) :
    datetime.adjust_gregorian ⟨y, mo, dy, hr, mi, s⟩ false = ⟨y, mo, 4, hr, mi, s⟩ := by
  rw [datetime.adjust_gregorian, if_pos h]
  rfl

/-- On a normalized instant, one `add_second` stays normalized and is
undone exactly by one `sub_second` — including across the Gregorian
cutover (`1582-10-04 23:59:59` steps to `1582-10-15 00:00:00` and back). -/
theorem add_second_roundtrip (d : datetime) (h : ValidDT d) :
    ValidDT d.add_second ∧ d.add_second.sub_second = d := by
  obtain ⟨y, mo, dy, hr, mi, s⟩ := d
  simp only [ValidDT, InGap] at h
  obtain ⟨hs0, hs1, hmi0, hmi1, hh0, hh1, hmo0, hmo1, hd0, hd1, hgap⟩ := h
  have hmd := maxDay_ge y mo hmo0 hmo1
  simp only [datetime.add_second]
  rw [normalize_bump y mo dy hr mi s hs0 hs1 hmi0 hmi1 hh0 hh1 hmo0 hmo1 hd0 hd1]
  by_cases hs : s ≤ 58
  · rw [if_pos hs, adjust_noop true y mo dy hr mi (s + 1) (by omega)]
    refine ⟨by simp only [ValidDT, InGap]; omega, ?_⟩
    simp only [datetime.sub_second]
    rw [normalize_drop y mo dy hr mi (s + 1) (by omega) (by omega) hmi0 hmi1 hh0 hh1
        hmo0 hmo1 hd0 hd1]
    rw [if_pos (by omega : (1 : Int) ≤ s + 1)]
    rw [adjust_noop false y mo dy hr mi (s + 1 - 1) (by omega)]
    simp only [datetime.mk.injEq, true_and, and_true]
    omega
  · have h59 : s = 59 := by omega
    subst h59
    rw [if_neg hs]
    by_cases hmi : mi ≤ 58
    · rw [if_pos hmi, adjust_noop true y mo dy hr (mi + 1) 0 (by omega)]
      refine ⟨by simp only [ValidDT, InGap]; omega, ?_⟩
      simp only [datetime.sub_second]
      rw [normalize_drop y mo dy hr (mi + 1) 0 le_rfl (by omega) (by omega) (by omega)
          hh0 hh1 hmo0 hmo1 hd0 hd1]
      rw [if_neg (by omega : ¬ (1 : Int) ≤ 0)]
      rw [if_pos (by omega : (1 : Int) ≤ mi + 1)]
      rw [adjust_noop false y mo dy hr (mi + 1 - 1) 59 (by omega)]
      simp only [datetime.mk.injEq, true_and, and_true]
      omega
    · have hm59 : mi = 59 := by omega
      subst hm59
      rw [if_neg hmi]
      by_cases hhr : hr ≤ 22
      · rw [if_pos hhr, adjust_noop true y mo dy (hr + 1) 0 0 (by omega)]
        refine ⟨by simp only [ValidDT, InGap]; omega, ?_⟩
        simp only [datetime.sub_second]
        rw [normalize_drop y mo dy (hr + 1) 0 0 le_rfl (by omega) le_rfl (by omega)
            (by omega) (by omega) hmo0 hmo1 hd0 hd1]
        rw [if_neg (by omega : ¬ (1 : Int) ≤ 0)]
        rw [if_neg (by omega : ¬ (1 : Int) ≤ 0)]
        rw [if_pos (by omega : (1 : Int) ≤ hr + 1)]
        rw [adjust_noop false y mo dy (hr + 1 - 1) 59 59 (by omega)]
        simp only [datetime.mk.injEq, true_and, and_true]
        omega
      · have h23 : hr = 23 := by omega
        subst h23
        rw [if_neg hhr]
        by_cases hdy : dy + 1 ≤ max_day_in_month y mo
        · rw [if_pos hdy]
          by_cases hg : y = 1582 ∧ mo = 10 ∧ dy = 4
          · obtain ⟨rfl, rfl, rfl⟩ := hg
            rw [adjust_gap_true 1582 10 (4 + 1) 0 0 0 (by norm_num)]
            refine ⟨by simp only [ValidDT, InGap]; norm_num [max_day_in_month], ?_⟩
            simp only [datetime.sub_second]
            rw [normalize_drop 1582 10 15 0 0 0 le_rfl (by norm_num) le_rfl (by norm_num)
                le_rfl (by norm_num) (by norm_num) (by norm_num) (by norm_num) (by decide)]
            rw [if_neg (by omega : ¬ (1 : Int) ≤ 0)]
            rw [if_neg (by omega : ¬ (1 : Int) ≤ 0)]
            rw [if_neg (by omega : ¬ (1 : Int) ≤ 0)]
            rw [if_pos (by omega : (2 : Int) ≤ 15)]
            rw [show (15 : Int) - 1 = 14 by norm_num]
            rw [adjust_gap_false 1582 10 14 23 59 59 (by norm_num)]
          · rw [adjust_noop true y mo (dy + 1) 0 0 0 (by omega)]
            refine ⟨by simp only [ValidDT, InGap]; omega, ?_⟩
            simp only [datetime.sub_second]
            rw [normalize_drop y mo (dy + 1) 0 0 0 le_rfl (by omega) le_rfl (by omega)
                le_rfl (by omega) hmo0 hmo1 (by omega) hdy]
            rw [if_neg (by omega : ¬ (1 : Int) ≤ 0)]
            rw [if_neg (by omega : ¬ (1 : Int) ≤ 0)]
            rw [if_neg (by omega : ¬ (1 : Int) ≤ 0)]
            rw [if_pos (by omega : (2 : Int) ≤ dy + 1)]
            rw [adjust_noop false y mo (dy + 1 - 1) 23 59 59 (by omega)]
            simp only [datetime.mk.injEq, true_and, and_true]
            omega
        · have hdmax : dy = max_day_in_month y mo := by omega
          rw [if_neg hdy]
          by_cases hmo11 : mo ≤ 11
          · rw [if_pos hmo11, adjust_noop true y (mo + 1) 1 0 0 0 (by omega)]
            have hmd1 := maxDay_ge y (mo + 1) (by omega) (by omega)
            refine ⟨by simp only [ValidDT, InGap]; omega, ?_⟩
            simp only [datetime.sub_second]
            rw [normalize_drop y (mo + 1) 1 0 0 0 le_rfl (by omega) le_rfl (by omega)
                le_rfl (by omega) (by omega) (by omega) le_rfl (by omega)]
            rw [if_neg (by omega : ¬ (1 : Int) ≤ 0)]
            rw [if_neg (by omega : ¬ (1 : Int) ≤ 0)]
            rw [if_neg (by omega : ¬ (1 : Int) ≤ 0)]
            rw [if_neg (by omega : ¬ (2 : Int) ≤ 1)]
            rw [if_pos (by omega : (2 : Int) ≤ mo + 1)]
            rw [show mo + 1 - 1 = mo by omega]
            rw [adjust_noop false y mo (max_day_in_month y mo) 23 59 59 (by omega)]
            simp only [datetime.mk.injEq, true_and, and_true]
            omega
          · have hmo12 : mo = 12 := by omega
            subst hmo12
            rw [if_neg hmo11, adjust_noop true (y + 1) 1 1 0 0 0 (by omega)]
            have hmd1 := maxDay_ge (y + 1) 1 (by omega) (by omega)
            refine ⟨by simp only [ValidDT, InGap]; omega, ?_⟩
            simp only [datetime.sub_second]
            rw [normalize_drop (y + 1) 1 1 0 0 0 le_rfl (by omega) le_rfl (by omega)
                le_rfl (by omega) le_rfl (by omega) le_rfl (by omega)]
            rw [if_neg (by omega : ¬ (1 : Int) ≤ 0)]
            rw [if_neg (by omega : ¬ (1 : Int) ≤ 0)]
            rw [if_neg (by omega : ¬ (1 : Int) ≤ 0)]
            rw [if_neg (by omega : ¬ (2 : Int) ≤ 1)]
            rw [if_neg (by omega : ¬ (2 : Int) ≤ 1)]
            rw [show y + 1 - 1 = y by omega]
            rw [adjust_noop false y 12 (max_day_in_month y 12) 23 59 59 (by omega)]
            simp only [datetime.mk.injEq, true_and, and_true]
            omega

theorem addSecondsLoop_add_second (n : Nat) (d : datetime) :
    addSecondsLoop n d.add_second = (addSecondsLoop n d).add_second := by
  induction n generalizing d with
  | zero => rfl
  | succ n ih =>
      simp only [addSecondsLoop]
      exact ih d.add_second

theorem addSecondsLoop_valid (n : Nat) (d : datetime) (h : ValidDT d) :
    ValidDT (addSecondsLoop n d) := by
  induction n generalizing d with
  | zero => exact h
  | succ n ih =>
      simp only [addSecondsLoop]
      exact ih d.add_second (add_second_roundtrip d h).1

theorem subSecondsLoop_addSecondsLoop (n : Nat) (d : datetime) (h : ValidDT d) :
    subSecondsLoop n (addSecondsLoop n d) = d := by
  induction n generalizing d with
  | zero => rfl
  | succ n ih =>
      simp only [addSecondsLoop, subSecondsLoop]
      rw [addSecondsLoop_add_second n d,
        (add_second_roundtrip (addSecondsLoop n d) (addSecondsLoop_valid n d h)).2]
      exact ih d h

theorem adjust_not_inGap (d : datetime) (b : Bool) :
    ¬ InGap (d.adjust_gregorian b) := by
  obtain ⟨y, mo, dy, hr, mi, s⟩ := d
  by_cases hc : y = 1582 ∧ mo = 10 ∧ 5 ≤ dy ∧ dy ≤ 14
  · cases b
    · rw [adjust_gap_false y mo dy hr mi s hc]
      simp only [InGap]
      omega
    · rw [adjust_gap_true y mo dy hr mi s hc]
      simp only [InGap]
      omega
  · rw [adjust_noop b y mo dy hr mi s hc]
    simp only [InGap]
    exact hc

theorem add_second_not_inGap (d : datetime) : ¬ InGap d.add_second :=
  adjust_not_inGap _ true

theorem sub_second_not_inGap (d : datetime) : ¬ InGap d.sub_second :=
  adjust_not_inGap _ false

theorem addSecondsLoop_not_inGap (n : Nat) (d : datetime) (h : ¬ InGap d) :
    ¬ InGap (addSecondsLoop n d) := by
  induction n generalizing d with
  | zero => exact h
  | succ n ih =>
      simp only [addSecondsLoop]
      exact ih d.add_second (add_second_not_inGap d)

theorem subSecondsLoop_not_inGap (n : Nat) (d : datetime) (h : ¬ InGap d) :
    ¬ InGap (subSecondsLoop n d) := by
  induction n generalizing d with
  | zero => exact h
  | succ n ih =>
      simp only [subSecondsLoop]
      exact ih d.sub_second (sub_second_not_inGap d)

/-! ## psefinder.py : one iteration of the coarse scan loop

The angular separation and the eclipse-possibility threshold are computed
by the external ephemeris (Skyfield); the loop body is modelled as a
function of those two real values. -/

/-- The two arguments with which `sefinder` invokes `psenarrow.senarrow`:
`senarrow(start_estimate, end_estimate)`. -/
structure senarrowArgs where
  starttime : datetime
  endtime : datetime
deriving DecidableEq, Repr

/-- One iteration of the coarse scan loop of `sefinder`.  In the hit
branch the source builds `start_estimate = cursor - 1 minute` and
`end_estimate = cursor + 3 hours` and then calls
`psenarrow.senarrow(start_estimate, end_estimate)`; `senarrow` declares
three required positional parameters `(starttime, endtime, tt)` with no
default, so Python raises `TypeError` at this call, before the
refinement, the `add_days(27)` skip, and the loop-bottom
`current_time = current_time + step` ever run.  The iteration is
therefore modelled as `Except`, the error value recording the offending
two-argument call; only a miss iteration completes and advances the
cursor by the caller-supplied coarse step. -/
noncomputable def sefinderStep (angular_separation eclipse_threshold : ℝ)
    (current_time : datetime) (step : timedelta) :
    Except senarrowArgs datetime :=
  if eclipse_threshold ≥ angular_separation then
    Except.error ⟨current_time.sub_minute, current_time.add_hours 3⟩
  else Except.ok (current_time.addTd step)

/-! ## Claim theorems: calendar and search loop -/

/-- C3: adding one second to 1582-10-04T23:59:59 yields exactly
1582-10-15T00:00:00, and no instant produced by the add/sub operations
(single-unit steppers, and the n-step second loops started outside the
gap) ever has a day in 5–14 of October 1582. -/
theorem c3_cutover_gap :
    (datetime.mk 1582 10 4 23 59 59).add_second = ⟨1582, 10, 15, 0, 0, 0⟩ ∧
    (∀ d : datetime,
      ¬ InGap d.add_second ∧ ¬ InGap d.sub_second ∧
      ¬ InGap d.add_minute ∧ ¬ InGap d.sub_minute ∧
      ¬ InGap d.add_hour ∧ ¬ InGap d.sub_hour ∧
      ¬ InGap d.add_day ∧ ¬ InGap d.sub_day) ∧
    (∀ (d : datetime) (n : Int), ¬ InGap d →
      ¬ InGap (d.add_seconds n) ∧ ¬ InGap (d.sub_seconds n)) := by
  refine ⟨by decide, fun d => ?_, fun d n h => ?_⟩
  · exact ⟨adjust_not_inGap _ true, adjust_not_inGap _ false,
      adjust_not_inGap _ true, adjust_not_inGap _ false,
      adjust_not_inGap _ true, adjust_not_inGap _ false,
      adjust_not_inGap _ true, adjust_not_inGap _ false⟩
  · exact ⟨addSecondsLoop_not_inGap n.toNat d h, subSecondsLoop_not_inGap n.toNat d h⟩

theorem c3_cutover_gap_witness :
    ¬ InGap ((datetime.mk 2024 1 1 0 0 0).add_seconds 5) :=
  (c3_cutover_gap.2.2 ⟨2024, 1, 1, 0, 0, 0⟩ 5 (by decide)).1

/-- C4: for every normalized instant `d` and every step count `n`,
`add_seconds n` followed by `sub_seconds n` restores `d` exactly — in
particular for any number of cutover crossings, which subsumes the
claim's "at most one crossing" hypothesis. -/
theorem c4_add_sub_roundtrip (d : datetime) (h : ValidDT d) (n : Int) :
    (d.add_seconds n).sub_seconds n = d := by
  simp only [datetime.add_seconds, datetime.sub_seconds]
  exact subSecondsLoop_addSecondsLoop n.toNat d h

theorem c4_add_sub_roundtrip_witness :
    ((datetime.mk 1582 10 4 23 59 50).add_seconds 60).sub_seconds 60 =
      ⟨1582, 10, 4, 23, 59, 50⟩ :=
  c4_add_sub_roundtrip ⟨1582, 10, 4, 23, 59, 50⟩ (by decide) 60

/-- C10: a negative count makes `add_seconds`/`sub_seconds` a no-op
(`range(n)` is empty), and a negative duration is honored only through
the `+`/`-` operators, which branch on the sign of `total_seconds` and
dispatch to the opposite-direction stepper. -/
theorem c10_negative_steps (d : datetime) (n : Int) (hn : n < 0)
    (td : timedelta) (htd : td.total_seconds < 0) :
    d.add_seconds n = d ∧ d.sub_seconds n = d ∧
    d.addTd td = d.sub_seconds (-td.total_seconds) ∧
    d.subTd td = d.add_seconds (-td.total_seconds) := by
  have hz : n.toNat = 0 := Int.toNat_of_nonpos (le_of_lt hn)
  refine ⟨?_, ?_, ?_, ?_⟩
  · simp only [datetime.add_seconds, hz, addSecondsLoop]
  · simp only [datetime.sub_seconds, hz, subSecondsLoop]
  · rw [datetime.addTd, if_neg (by omega)]
  · rw [datetime.subTd, datetime.addTd]
    rw [if_pos (show 0 ≤ td.neg.total_seconds by simp only [timedelta.neg]; omega)]
    rfl

theorem c10_negative_steps_witness :
    (datetime.mk 2024 4 8 18 17 20).add_seconds (-5) = ⟨2024, 4, 8, 18, 17, 20⟩ :=
  (c10_negative_steps ⟨2024, 4, 8, 18, 17, 20⟩ (-5) (by norm_num) ⟨-5⟩
    (by norm_num)).1

/-- C2 counterexample: with separation 0 ≤ threshold 1, the hit
iteration does not perform the refinement and advance the cursor by
exactly 27 days — it raises `TypeError` at the two-argument `senarrow`
call (built from the window estimates) and never advances the cursor at
all. -/
theorem c2_counterexample :
    sefinderStep 0 1 ⟨2024, 1, 1, 0, 0, 0⟩ ⟨1⟩ =
      Except.error ⟨(datetime.mk 2024 1 1 0 0 0).sub_minute,
        (datetime.mk 2024 1 1 0 0 0).add_hours 3⟩ ∧
    sefinderStep 0 1 ⟨2024, 1, 1, 0, 0, 0⟩ ⟨1⟩ ≠
      Except.ok ((datetime.mk 2024 1 1 0 0 0).add_days 27) := by
  unfold sefinderStep
  rw [if_pos (by norm_num : (1 : ℝ) ≥ 0)]
  exact ⟨rfl, fun h => Except.noConfusion h⟩

/-- C2 (amended): in a hit iteration (threshold ≥ separation) the source
builds the refinement-window estimates `cursor − 1 minute` and
`cursor + 3 hours` and then fails with `TypeError` — the
`senarrow(start_estimate, end_estimate)` call omits the third required
parameter `tt` of `psenarrow.senarrow` — so neither the one-second
refinement nor any cursor advance happens; in every other iteration the
cursor advances by exactly the caller-supplied coarse step. -/
theorem c2_sefinder_step (angular_separation eclipse_threshold : ℝ)
    (current_time : datetime) (step : timedelta) :
    (eclipse_threshold ≥ angular_separation →
      sefinderStep angular_separation eclipse_threshold current_time step =
        Except.error ⟨current_time.sub_minute, current_time.add_hours 3⟩) ∧
    (¬ eclipse_threshold ≥ angular_separation →
      sefinderStep angular_separation eclipse_threshold current_time step =
        Except.ok (current_time.addTd step)) := by
  constructor <;> intro h <;> unfold sefinderStep
  · rw [if_pos h]
  · rw [if_neg h]

theorem c2_sefinder_step_witness :
    sefinderStep 0 1 ⟨2024, 1, 1, 0, 0, 0⟩ ⟨7200⟩ =
      Except.error ⟨(datetime.mk 2024 1 1 0 0 0).sub_minute,
        (datetime.mk 2024 1 1 0 0 0).add_hours 3⟩ :=
  (c2_sefinder_step 0 1 ⟨2024, 1, 1, 0, 0, 0⟩ ⟨7200⟩).1 (by norm_num)

/-! ## Real-valued modules: Python floats idealised as `ℝ` -/

noncomputable section

/-- Python's `%` on floats with a positive divisor:
`x % y = x - y * floor(x / y)` (result has the divisor's sign). -/
noncomputable def pymod (x y : ℝ) : ℝ := x - y * ⌊x / y⌋

theorem pymod_nonneg (x y : ℝ) (hy : 0 < y) : 0 ≤ pymod x y := by
  unfold pymod
  have h := Int.fract_nonneg (x / y)
  rw [Int.fract] at h
  have h2 : 0 ≤ (x / y - ⌊x / y⌋) * y := mul_nonneg h hy.le
  have h3 : (x / y - ⌊x / y⌋) * y = x - y * ⌊x / y⌋ := by
    rw [sub_mul, div_mul_cancel₀ x (ne_of_gt hy)]
    ring
  linarith

theorem pymod_lt (x y : ℝ) (hy : 0 < y) : pymod x y < y := by
  unfold pymod
  have h := Int.fract_lt_one (x / y)
  rw [Int.fract] at h
  have h2 : (x / y - ⌊x / y⌋) * y < 1 * y := mul_lt_mul_of_pos_right h hy
  have h3 : (x / y - ⌊x / y⌋) * y = x - y * ⌊x / y⌋ := by
    rw [sub_mul, div_mul_cancel₀ x (ne_of_gt hy)]
    ring
  linarith

/-! ## pconstants.py -/

/-- `pconstants.E_SQUARED`. -/
def E_SQUARED : ℝ := 0.006694385

/-- `pconstants.ONE_MINUS_F`. -/
def ONE_MINUS_F : ℝ := 0.99664719

/-- `pconstants.ELLIPSOID_CORRECTION`. -/
def ELLIPSOID_CORRECTION : ℝ := 1.00336409

/-- `pconstants.DELTA_LAMBDA_FACTOR`. -/
def DELTA_LAMBDA_FACTOR : ℝ := 0.00417807

/-! ## psecentral.py : gamma classification -/

/-- Modelled from the spec: `pconstants.CENTRAL_GAMMA_LIMIT` is
referenced by `psecentral.py` but its definition is missing from the
source's `pconstants.py`; the spec fixes the central-limit boundary at
0.9972. -/
def CENTRAL_GAMMA_LIMIT : ℝ := 0.9972

/-- Modelled from the spec: `pconstants.EXIST_GAMMA_LIMIT` is referenced
by `psecentral.py` but its definition is missing from the source's
`pconstants.py`; the spec fixes the existence boundary at 1.56. -/
def EXIST_GAMMA_LIMIT : ℝ := 1.56

/-- `psecentral.central`: `abs(gamma) <= CENTRAL_GAMMA_LIMIT`. -/
def central (gamma : ℝ) : Prop := |gamma| ≤ CENTRAL_GAMMA_LIMIT

/-- `psecentral.exist`: `abs(gamma) <= EXIST_GAMMA_LIMIT`. -/
def exist (gamma : ℝ) : Prop := |gamma| ≤ EXIST_GAMMA_LIMIT

/-- C1: the central test holds iff `|gamma| ≤ CENTRAL_LIMIT` and the
existence test iff `|gamma| ≤ EXIST_LIMIT`, both inclusive; gamma =
0.9972 is classified central and gamma = 1.5601 as not existing. -/
theorem c1_gamma_classifier :
    (∀ gamma : ℝ, central gamma ↔ |gamma| ≤ CENTRAL_GAMMA_LIMIT) ∧
    (∀ gamma : ℝ, exist gamma ↔ |gamma| ≤ EXIST_GAMMA_LIMIT) ∧
    CENTRAL_GAMMA_LIMIT = 0.9972 ∧ EXIST_GAMMA_LIMIT = 1.56 ∧
    central 0.9972 ∧ ¬ exist 1.5601 := by
  refine ⟨fun g => Iff.rfl, fun g => Iff.rfl, rfl, rfl, ?_, ?_⟩
  · simp only [central, CENTRAL_GAMMA_LIMIT, abs_le]
    norm_num
  · simp only [exist, EXIST_GAMMA_LIMIT, abs_le]
    norm_num

/-! ## Cubic polynomials (psegam.py / psestartendtime.py / psecentralcoords.py) -/

/-- Coefficient list `[a0, a1, a2, a3]` of a cubic. -/
structure Cubic where
  a0 : ℝ
  a1 : ℝ
  a2 : ℝ
  a3 : ℝ

/-- `poly(coeffs, t) = a0 + a1*t + a2*t*t + a3*t*t*t`, as duplicated in
`psegam.py`, `psestartendtime.py`, `pstartendtimel.py`,
`psecentralcoords.py` and `pcentercoords.py`. -/
def poly (c : Cubic) (t : ℝ) : ℝ := c.a0 + c.a1 * t + c.a2 * t * t + c.a3 * t * t * t

/-! ## psebessel.py : polynomial fitting -/

/-- `find_besselian_polynomial`: `np.linalg.lstsq` applied to the fixed
full-column-rank 5×4 Vandermonde matrix with rows `[1, t, t², t³]` for
`t ∈ {-2, -1, 0, 1, 2}`.  The external `lstsq` is modelled by its
contract — the unique least-squares solution, i.e. the solution of the
normal equations `AᵀA c = Aᵀ b`, written out in closed form (see
`find_besselian_polynomial_normal_equations`). -/
def find_besselian_polynomial (b1 b2 b3 b4 b5 : ℝ) : Cubic :=
  ⟨(17 * (b1 + b2 + b3 + b4 + b5) - 5 * (4 * b1 + b2 + b4 + 4 * b5)) / 35,
   (65 * (-2 * b1 - b2 + b4 + 2 * b5) - 17 * (-8 * b1 - b2 + b4 + 8 * b5)) / 72,
   ((4 * b1 + b2 + b4 + 4 * b5) - 2 * (b1 + b2 + b3 + b4 + b5)) / 14,
   (5 * (-8 * b1 - b2 + b4 + 8 * b5) - 17 * (-2 * b1 - b2 + b4 + 2 * b5)) / 72⟩

/-- The returned coefficients satisfy the normal equations
`AᵀA c = Aᵀ b` of the 5×4 Vandermonde system (with
`AᵀA = [[5,0,10,0],[0,10,0,34],[10,0,34,0],[0,34,0,130]]`), so they are
the least-squares solution `np.linalg.lstsq` computes. -/
theorem find_besselian_polynomial_normal_equations (b1 b2 b3 b4 b5 : ℝ) :
    5 * (find_besselian_polynomial b1 b2 b3 b4 b5).a0 +
        10 * (find_besselian_polynomial b1 b2 b3 b4 b5).a2 =
      b1 + b2 + b3 + b4 + b5 ∧
    10 * (find_besselian_polynomial b1 b2 b3 b4 b5).a1 +
        34 * (find_besselian_polynomial b1 b2 b3 b4 b5).a3 =
      -2 * b1 - b2 + b4 + 2 * b5 ∧
    10 * (find_besselian_polynomial b1 b2 b3 b4 b5).a0 +
        34 * (find_besselian_polynomial b1 b2 b3 b4 b5).a2 =
      4 * b1 + b2 + b4 + 4 * b5 ∧
    34 * (find_besselian_polynomial b1 b2 b3 b4 b5).a1 +
        130 * (find_besselian_polynomial b1 b2 b3 b4 b5).a3 =
      -8 * b1 - b2 + b4 + 8 * b5 := by
  unfold find_besselian_polynomial
  refine ⟨by ring, by ring, by ring, by ring⟩

/-- `compute_mu(dt, dt_seconds)`: the two hour-angle samples `H0` (at
`dt`) and `H1` (at `dt + dt_seconds`) are the ephemeris-derived outputs
of `besselian_find` and are abstracted as inputs.  Returns
`(H0, mu)` with `dH = (H1 - H0 + 180) % 360 - 180` and
`mu = dH / (dt_seconds / 3600)` degrees per hour. -/
def compute_mu (H0 H1 dt_seconds : ℝ) : ℝ × ℝ :=
  (H0, (pymod (H1 - H0 + 180) 360 - 180) / (dt_seconds / 3600))

/-- The spec's unwrap of an angle difference into the half-open interval
`(-180°, 180°]` (written from the spec's words, for comparison with the
code's `[-180°, 180°)` unwrap). -/
def specUnwrap (x : ℝ) : ℝ := x - 360 * ⌈(x - 180) / 360⌉

/-- C8 counterexample: for samples `H0 = 0`, `H1 = 180` one hour apart,
the code's rate is `-180°/h`, while the claim's unwrap into
`(-180°, 180°]` demands `+180°/h`. -/
theorem c8_counterexample :
    (compute_mu 0 180 3600).2 = -180 ∧
    specUnwrap (180 - 0) / ((3600 : ℝ) / 3600) = 180 ∧
    (-180 : ℝ) ≠ 180 := by
  refine ⟨?_, ?_, by norm_num⟩
  · unfold compute_mu pymod
    norm_num
  · unfold specUnwrap
    norm_num

/-- C8 (amended): the degree-1 fitter's rate equals the difference
`H1 - H0` unwrapped into the half-open interval `[-180°, 180°)` — not
`(-180°, 180°]` — divided by the hour step; samples 359° and 2° one hour
apart give `+3°/h`. -/
theorem c8_unwrap_rate :
    (∀ H0 H1 dt_seconds : ℝ, 0 < dt_seconds →
      (-180 ≤ (compute_mu H0 H1 dt_seconds).2 * (dt_seconds / 3600) ∧
        (compute_mu H0 H1 dt_seconds).2 * (dt_seconds / 3600) < 180) ∧
      ∃ k : ℤ, (compute_mu H0 H1 dt_seconds).2 * (dt_seconds / 3600) =
        (H1 - H0) - 360 * k) ∧
    (compute_mu 359 2 3600).2 = 3 := by
  constructor
  · intro H0 H1 dt_seconds h
    have hne : dt_seconds / 3600 ≠ 0 := by positivity
    unfold compute_mu
    simp only
    rw [div_mul_cancel₀ _ hne]
    refine ⟨⟨?_, ?_⟩, ⟨⌊(H1 - H0 + 180) / 360⌋, by unfold pymod; ring⟩⟩
    · have := pymod_nonneg (H1 - H0 + 180) 360 (by norm_num)
      linarith
    · have := pymod_lt (H1 - H0 + 180) 360 (by norm_num)
      linarith
  · unfold compute_mu pymod
    norm_num

/-! ## psestartendtime.py : contact-time solver -/

/-- `penumbra_distance(t, x, y, l) = hypot(X(t), Y(t)) - (1 + L(t))`,
with `math.hypot(x, y) = sqrt(x² + y²)`. -/
def penumbra_distance (t : ℝ) (x_coeffs y_coeffs l_coeffs : Cubic) : ℝ :=
  Real.sqrt (poly x_coeffs t ^ 2 + poly y_coeffs t ^ 2) - (1 + poly l_coeffs t)

theorem exists_root_of_sign_change (f : ℝ → ℝ) (a b : ℝ) (hab : a ≤ b)
    (hc : ContinuousOn f (Set.Icc a b)) (hs : f a * f b < 0) :
    ∃ t, t ∈ Set.Icc a b ∧ f t = 0 := by
  rcases mul_neg_iff.1 hs with ⟨ha, hb⟩ | ⟨ha, hb⟩
  · obtain ⟨t, ht, hft⟩ := intermediate_value_Icc' hab hc ⟨hb.le, ha.le⟩
    exact ⟨t, ht, hft⟩
  · obtain ⟨t, ht, hft⟩ := intermediate_value_Icc hab hc ⟨ha.le, hb.le⟩
    exact ⟨t, ht, hft⟩

/-- `scipy.optimize.brentq` (an external library routine), modelled by
its documented contract: for a continuous function with opposite signs
at the bracket endpoints it returns a root inside the bracket;
otherwise it raises `ValueError` ("f(a) and f(b) must have different
signs"), modelled as `none`. -/
def brentq (f : ℝ → ℝ) (a b : ℝ) : Option ℝ :=
  letI : Decidable (a ≤ b ∧ ContinuousOn f (Set.Icc a b) ∧ f a * f b < 0) :=
    Classical.propDecidable _
  if h : a ≤ b ∧ ContinuousOn f (Set.Icc a b) ∧ f a * f b < 0 then
    some (Classical.choose (exists_root_of_sign_change f a b h.1 h.2.1 h.2.2))
  else none

theorem brentq_some (f : ℝ → ℝ) (a b : ℝ) (h1 : a ≤ b)
    (h2 : ContinuousOn f (Set.Icc a b)) (h3 : f a * f b < 0) :
    ∃ t, brentq f a b = some t ∧ t ∈ Set.Icc a b ∧ f t = 0 := by
  unfold brentq
  rw [dif_pos (show a ≤ b ∧ ContinuousOn f (Set.Icc a b) ∧ f a * f b < 0 from
    ⟨h1, h2, h3⟩)]
  exact ⟨_, rfl, Classical.choose_spec (exists_root_of_sign_change f a b h1 h2 h3)⟩

theorem brentq_none (f : ℝ → ℝ) (a b : ℝ)
    (h : ¬(a ≤ b ∧ ContinuousOn f (Set.Icc a b) ∧ f a * f b < 0)) :
    brentq f a b = none :=
  dif_neg h

/-- `startendtime`: bracketed root-finding for ingress in
`[t_start, t_mid]` and egress in `[t_mid, t_end]` (defaults −6, 0, 6); a
`ValueError` raised by either `brentq` call propagates (`none`). -/
def startendtime (x_coeffs y_coeffs l_coeffs : Cubic)
    (t_start t_mid t_end : ℝ) : Option (ℝ × ℝ) :=
  match brentq (fun t => penumbra_distance t x_coeffs y_coeffs l_coeffs) t_start t_mid,
      brentq (fun t => penumbra_distance t x_coeffs y_coeffs l_coeffs) t_mid t_end with
  | some start_time, some end_time => some (start_time, end_time)
  | _, _ => none

theorem continuous_penumbra_distance (xc yc lc : Cubic) :
    Continuous fun t => penumbra_distance t xc yc lc := by
  unfold penumbra_distance poly
  fun_prop

/-- C5: when D has opposite signs at the endpoints of both brackets, the
solver returns a pair of roots of D lying in the respective brackets;
when a bracket has no sign change at its endpoints, the solver reports
the NoContact condition (`none`) instead of a meaningless value. -/
theorem c5_contact_solver (xc yc lc : Cubic) (t_start t_mid t_end : ℝ)
    (h1 : t_start ≤ t_mid) (h2 : t_mid ≤ t_end) :
    (penumbra_distance t_start xc yc lc * penumbra_distance t_mid xc yc lc < 0 →
      penumbra_distance t_mid xc yc lc * penumbra_distance t_end xc yc lc < 0 →
      ∃ t1 t2, startendtime xc yc lc t_start t_mid t_end = some (t1, t2) ∧
        penumbra_distance t1 xc yc lc = 0 ∧ t1 ∈ Set.Icc t_start t_mid ∧
        penumbra_distance t2 xc yc lc = 0 ∧ t2 ∈ Set.Icc t_mid t_end) ∧
    (0 < penumbra_distance t_start xc yc lc * penumbra_distance t_mid xc yc lc ∨
      0 < penumbra_distance t_mid xc yc lc * penumbra_distance t_end xc yc lc →
      startendtime xc yc lc t_start t_mid t_end = none) := by
  have hcont := continuous_penumbra_distance xc yc lc
  constructor
  · intro hs1 hs2
    obtain ⟨u, hu, huI, huz⟩ :=
      brentq_some _ t_start t_mid h1 hcont.continuousOn hs1
    obtain ⟨v, hv, hvI, hvz⟩ :=
      brentq_some _ t_mid t_end h2 hcont.continuousOn hs2
    refine ⟨u, v, ?_, huz, huI, hvz, hvI⟩
    unfold startendtime
    rw [hu, hv]
  · intro h
    unfold startendtime
    rcases h with h | h
    · rw [brentq_none _ t_start t_mid
        (by rintro ⟨-, -, hlt⟩; exact absurd hlt (not_lt.2 h.le))]
    · rw [brentq_none _ t_mid t_end
        (by rintro ⟨-, -, hlt⟩; exact absurd hlt (not_lt.2 h.le))]
      cases brentq (fun t => penumbra_distance t xc yc lc) t_start t_mid <;> rfl

theorem c5_sign_mid :
    penumbra_distance 0 ⟨0, 1/10, 0, 0⟩ ⟨9/10, 0, 0, 0⟩ ⟨1/20, 0, 0, 0⟩ < 0 := by
  unfold penumbra_distance
  have h : Real.sqrt (poly ⟨0, 1/10, 0, 0⟩ 0 ^ 2 + poly ⟨9/10, 0, 0, 0⟩ 0 ^ 2) <
      21 / 20 := by
    rw [Real.sqrt_lt' (by norm_num)]
    unfold poly
    norm_num
  have hl : poly ⟨1/20, 0, 0, 0⟩ (0 : ℝ) = 1 / 20 := by
    unfold poly
    norm_num
  rw [hl]
  linarith

theorem c5_sign_left :
    0 < penumbra_distance (-6) ⟨0, 1/10, 0, 0⟩ ⟨9/10, 0, 0, 0⟩ ⟨1/20, 0, 0, 0⟩ := by
  unfold penumbra_distance
  have h : (21 / 20 : ℝ) <
      Real.sqrt (poly ⟨0, 1/10, 0, 0⟩ (-6) ^ 2 + poly ⟨9/10, 0, 0, 0⟩ (-6) ^ 2) := by
    rw [Real.lt_sqrt (by norm_num)]
    unfold poly
    norm_num
  have hl : poly ⟨1/20, 0, 0, 0⟩ (-6 : ℝ) = 1 / 20 := by
    unfold poly
    norm_num
  rw [hl]
  linarith

theorem c5_sign_right :
    0 < penumbra_distance 6 ⟨0, 1/10, 0, 0⟩ ⟨9/10, 0, 0, 0⟩ ⟨1/20, 0, 0, 0⟩ := by
  unfold penumbra_distance
  have h : (21 / 20 : ℝ) <
      Real.sqrt (poly ⟨0, 1/10, 0, 0⟩ 6 ^ 2 + poly ⟨9/10, 0, 0, 0⟩ 6 ^ 2) := by
    rw [Real.lt_sqrt (by norm_num)]
    unfold poly
    norm_num
  have hl : poly ⟨1/20, 0, 0, 0⟩ (6 : ℝ) = 1 / 20 := by
    unfold poly
    norm_num
  rw [hl]
  linarith

theorem c5_contact_solver_witness :
    ∃ t1 t2,
      startendtime ⟨0, 1/10, 0, 0⟩ ⟨9/10, 0, 0, 0⟩ ⟨1/20, 0, 0, 0⟩ (-6) 0 6 =
        some (t1, t2) ∧
      penumbra_distance t1 ⟨0, 1/10, 0, 0⟩ ⟨9/10, 0, 0, 0⟩ ⟨1/20, 0, 0, 0⟩ = 0 ∧
      t1 ∈ Set.Icc (-6 : ℝ) 0 ∧
      penumbra_distance t2 ⟨0, 1/10, 0, 0⟩ ⟨9/10, 0, 0, 0⟩ ⟨1/20, 0, 0, 0⟩ = 0 ∧
      t2 ∈ Set.Icc (0 : ℝ) 6 :=
  (c5_contact_solver ⟨0, 1/10, 0, 0⟩ ⟨9/10, 0, 0, 0⟩ ⟨1/20, 0, 0, 0⟩ (-6) 0 6
    (by norm_num) (by norm_num)).1
    (mul_neg_of_pos_of_neg c5_sign_left c5_sign_mid)
    (mul_neg_of_neg_of_pos c5_sign_mid c5_sign_right)

/-! ## psecentralcoords.py / pcentercoords.py : shadow-path projector

The two files implement the same `coords` computation (identical
formulas; `pcentercoords.py` only differs cosmetically).  `Angle`
conversions are `degrees·π/180` and `radians·180/π`; `math.atan2` is
the standard two-argument arctangent. -/

/-- `math.atan2(y, x)` (C convention). -/
def atan2 (y x : ℝ) : ℝ :=
  if 0 < x then Real.arctan (y / x)
  else if x < 0 then
    if 0 ≤ y then Real.arctan (y / x) + Real.pi
    else Real.arctan (y / x) - Real.pi
  else if 0 < y then Real.pi / 2
  else if y < 0 then -(Real.pi / 2)
  else 0

/-- `omega = 1/sqrt(1 - e2*cos(d)^2)` at declination `d` in radians. -/
def coordsOmega (da : Cubic) (t : ℝ) : ℝ :=
  1 / Real.sqrt (1 - E_SQUARED * Real.cos (poly da t * Real.pi / 180) ^ 2)

/-- `Bsq = 1 - X*X - y1*y1` with `y1 = omega*Y`. -/
def coordsBsq (xa ya da : Cubic) (t : ℝ) : ℝ :=
  1 - poly xa t * poly xa t -
    coordsOmega da t * poly ya t * (coordsOmega da t * poly ya t)

/-- `sin_phi1 = B*b1 + y1*b2` with `B = sqrt(Bsq)`,
`b1 = omega*sin(d)`, `b2 = one_minus_f*omega*cos(d)`. -/
def coordsSinPhi1 (xa ya da : Cubic) (t : ℝ) : ℝ :=
  Real.sqrt (coordsBsq xa ya da t) *
      (coordsOmega da t * Real.sin (poly da t * Real.pi / 180)) +
    coordsOmega da t * poly ya t *
      (ONE_MINUS_F * coordsOmega da t * Real.cos (poly da t * Real.pi / 180))

/-- `phi1 = asin(sin_phi1)`.  `Real.arcsin` agrees with `math.asin` on
the domain `[-1, 1]`; outside it `math.asin` raises
`ValueError: math domain error`, an error path modelled by `coordsPy`,
which reaches this definition only after the domain check. -/
def coordsPhi1 (xa ya da : Cubic) (t : ℝ) : ℝ :=
  Real.arcsin (coordsSinPhi1 xa ya da t)

/-- `phi = atan(ELLIPSOID_CORRECTION * tan(phi1))`. -/
def coordsPhi (xa ya da : Cubic) (t : ℝ) : ℝ :=
  Real.arctan (ELLIPSOID_CORRECTION * Real.tan (coordsPhi1 xa ya da t))

/-- `H = atan2(sin_H, cos_H)` with `sin_H = X/cos(phi1)` and
`cos_H = (B*b2 - y1*b1)/cos(phi1)`. -/
def coordsH (xa ya da : Cubic) (t : ℝ) : ℝ :=
  atan2 (poly xa t / Real.cos (coordsPhi1 xa ya da t))
    ((Real.sqrt (coordsBsq xa ya da t) *
        (ONE_MINUS_F * coordsOmega da t * Real.cos (poly da t * Real.pi / 180)) -
      coordsOmega da t * poly ya t *
        (coordsOmega da t * Real.sin (poly da t * Real.pi / 180))) /
      Real.cos (coordsPhi1 xa ya da t))

/-- `lambda_geo = (m - H - DELTA_LAMBDA_FACTOR*delta_t*pi/180) % (2*pi)`. -/
def coordsLambda (xa ya da ma : Cubic) (delta_t t : ℝ) : ℝ :=
  pymod (poly ma t * Real.pi / 180 - coordsH xa ya da t -
    DELTA_LAMBDA_FACTOR * delta_t * Real.pi / 180) (2 * Real.pi)

/-- `lat = ((phi_deg + 90) % 180) - 90`. -/
def coordsLat (xa ya da : Cubic) (t : ℝ) : ℝ :=
  pymod (coordsPhi xa ya da t * 180 / Real.pi + 90) 180 - 90

/-- `lon = ((-lambda_deg + 180) % 360) - 180`. -/
def coordsLon (xa ya da ma : Cubic) (delta_t t : ℝ) : ℝ :=
  pymod (-(coordsLambda xa ya da ma delta_t t * 180 / Real.pi) + 180) 360 - 180

/-- `coords(Xa, Ya, Da, Ma, delta_t, T)`: the sentinel `(None, None)`
when `Bsq < 0`, otherwise the geodetic pair.  This is the total-function
model (`math.asin` rendered by the total `Real.arcsin`); it describes
the source on every input where the source returns, while the raising
behaviour of `math.asin` outside its domain is carried by `coordsPy`,
which agrees with this model on every `Except.ok` outcome
(`coordsPy_agrees`). -/
def coords (xa ya da ma : Cubic) (delta_t t : ℝ) : Option (ℝ × ℝ) :=
  if coordsBsq xa ya da t < 0 then none
  else some (coordsLat xa ya da t, coordsLon xa ya da ma delta_t t)

/-- `coords` with the source error path made explicit: after the
`Bsq < 0` sentinel check, `phi1 = math.asin(sin_phi1)` raises
`ValueError: math domain error` whenever `|sin_phi1| > 1` — which is
reachable with `Bsq ≥ 0` from the source constants alone, since
`ONE_MINUS_F² > 1 − E_SQUARED` (see `c6_counterexample`).
`Except.ok none` is the `(None, None)` sentinel and
`Except.ok (some p)` a normal return; no later operation raises
(Python float `tan`, `atan2`, `%` and division by the nonzero float
`cos(asin(x))`, `|x| ≤ 1`, are total). -/
def coordsPy (xa ya da ma : Cubic) (delta_t t : ℝ) :
    Except String (Option (ℝ × ℝ)) :=
  if coordsBsq xa ya da t < 0 then Except.ok none
  else if coordsSinPhi1 xa ya da t < -1 ∨ 1 < coordsSinPhi1 xa ya da t then
    Except.error "ValueError: math domain error"
  else Except.ok (some (coordsLat xa ya da t, coordsLon xa ya da ma delta_t t))

/-- Wherever the source returns (no exception), the total-function model
`coords` computes the same outcome as `coordsPy`. -/
theorem coordsPy_agrees (xa ya da ma : Cubic) (delta_t t : ℝ)
    (p : Option (ℝ × ℝ)) (h : coordsPy xa ya da ma delta_t t = Except.ok p) :
    coords xa ya da ma delta_t t = p := by
  unfold coordsPy at h
  unfold coords
  by_cases hB : coordsBsq xa ya da t < 0
  · rw [if_pos hB] at h
    rw [if_pos hB]
    exact (Except.ok.inj h).symm ▸ rfl
  · rw [if_neg hB] at h
    rw [if_neg hB]
    by_cases hdom : coordsSinPhi1 xa ya da t < -1 ∨ 1 < coordsSinPhi1 xa ya da t
    · rw [if_pos hdom] at h
      exact absurd h (fun hq => Except.noConfusion hq)
    · rw [if_neg hdom] at h
      exact (Except.ok.inj h).symm ▸ rfl

/-- `sin_phi1` vanishes on the all-zero polynomial inputs. -/
theorem coordsSinPhi1_zero :
    coordsSinPhi1 ⟨0, 0, 0, 0⟩ ⟨0, 0, 0, 0⟩ ⟨0, 0, 0, 0⟩ 0 = 0 := by
  have hz : ∀ t : ℝ, poly ⟨0, 0, 0, 0⟩ t = 0 := by
    intro t
    unfold poly
    ring
  have hd : poly ⟨(0 : ℝ), 0, 0, 0⟩ (0 : ℝ) * Real.pi / 180 = 0 := by
    rw [hz]
    ring
  unfold coordsSinPhi1
  rw [hd, hz, Real.sin_zero]
  ring

/-- C6 counterexample: the constant polynomials `X = 0`, `D = 0`,
`Y = √(1 − E_SQUARED)` give `Bsq = 0 ≥ 0`, yet the source raises
`ValueError` from `math.asin` — `sin_phi1 = ONE_MINUS_F/√(1 − E_SQUARED)`
exceeds 1 because `0.99664719² > 1 − 0.006694385` — instead of
returning a numeric latitude/longitude pair. -/
theorem c6_counterexample :
    coordsBsq ⟨0, 0, 0, 0⟩ ⟨Real.sqrt (1 - E_SQUARED), 0, 0, 0⟩ ⟨0, 0, 0, 0⟩ 0 =
      0 ∧
    coordsPy ⟨0, 0, 0, 0⟩ ⟨Real.sqrt (1 - E_SQUARED), 0, 0, 0⟩ ⟨0, 0, 0, 0⟩
        ⟨0, 0, 0, 0⟩ 0 0 = Except.error "ValueError: math domain error" := by
  have hz : ∀ t : ℝ, poly ⟨0, 0, 0, 0⟩ t = 0 := by
    intro t
    unfold poly
    ring
  have hd : poly ⟨(0 : ℝ), 0, 0, 0⟩ (0 : ℝ) * Real.pi / 180 = 0 := by
    rw [hz]
    ring
  have he2 : (0 : ℝ) < 1 - E_SQUARED := by
    unfold E_SQUARED
    norm_num
  have hsq : 0 < Real.sqrt (1 - E_SQUARED) := Real.sqrt_pos.2 he2
  have hY : poly ⟨Real.sqrt (1 - E_SQUARED), 0, 0, 0⟩ (0 : ℝ) =
      Real.sqrt (1 - E_SQUARED) := by
    unfold poly
    ring
  have homega : coordsOmega ⟨0, 0, 0, 0⟩ 0 = 1 / Real.sqrt (1 - E_SQUARED) := by
    unfold coordsOmega
    rw [hd, Real.cos_zero]
    norm_num
  have hy1 : coordsOmega ⟨0, 0, 0, 0⟩ 0 *
      poly ⟨Real.sqrt (1 - E_SQUARED), 0, 0, 0⟩ 0 = 1 := by
    rw [homega, hY]
    field_simp
  have hBsq : coordsBsq ⟨0, 0, 0, 0⟩ ⟨Real.sqrt (1 - E_SQUARED), 0, 0, 0⟩
      ⟨0, 0, 0, 0⟩ 0 = 0 := by
    unfold coordsBsq
    rw [hz, hy1]
    ring
  have hf : (0 : ℝ) < ONE_MINUS_F := by
    unfold ONE_MINUS_F
    norm_num
  have hsin : coordsSinPhi1 ⟨0, 0, 0, 0⟩ ⟨Real.sqrt (1 - E_SQUARED), 0, 0, 0⟩
      ⟨0, 0, 0, 0⟩ 0 = ONE_MINUS_F / Real.sqrt (1 - E_SQUARED) := by
    unfold coordsSinPhi1
    rw [hBsq, Real.sqrt_zero, hd, hy1, homega, Real.sin_zero, Real.cos_zero]
    ring
  have hlt : Real.sqrt (1 - E_SQUARED) < ONE_MINUS_F := by
    rw [show ONE_MINUS_F = Real.sqrt (ONE_MINUS_F ^ 2) from
      (Real.sqrt_sq hf.le).symm]
    apply Real.sqrt_lt_sqrt he2.le
    unfold ONE_MINUS_F E_SQUARED
    norm_num
  have hgt : 1 < coordsSinPhi1 ⟨0, 0, 0, 0⟩ ⟨Real.sqrt (1 - E_SQUARED), 0, 0, 0⟩
      ⟨0, 0, 0, 0⟩ 0 := by
    rw [hsin, lt_div_iff₀ hsq, one_mul]
    exact hlt
  refine ⟨hBsq, ?_⟩
  unfold coordsPy
  rw [if_neg (by rw [hBsq]; norm_num), if_pos (Or.inr hgt)]

/-- C6 (amended): whenever `Bsq < 0` the projector returns the explicit
no-intersection sentinel `(None, None)` — never an exception or a
fabricated coordinate (the constant polynomials `X = 2`, `Y = 2` yield
the sentinel); when `Bsq ≥ 0` it returns a numeric latitude/longitude
pair provided the derived `sin_phi1` lies in `math.asin`'s domain
`[-1, 1]` — but for some inputs with `Bsq ≥ 0` (e.g. `X = 0`, `D = 0`,
`Y = √(1 − e²)`) `sin_phi1` exceeds 1 and the code raises `ValueError`
from `math.asin` instead. -/
theorem c6_no_intersection_sentinel :
    (∀ (xa ya da ma : Cubic) (delta_t t : ℝ),
      (coordsBsq xa ya da t < 0 → coordsPy xa ya da ma delta_t t = Except.ok none) ∧
      (0 ≤ coordsBsq xa ya da t → -1 ≤ coordsSinPhi1 xa ya da t →
        coordsSinPhi1 xa ya da t ≤ 1 →
        ∃ lat lon, coordsPy xa ya da ma delta_t t = Except.ok (some (lat, lon)))) ∧
    coordsPy ⟨2, 0, 0, 0⟩ ⟨2, 0, 0, 0⟩ ⟨0, 0, 0, 0⟩ ⟨0, 0, 0, 0⟩ 0 0 =
      Except.ok none := by
  constructor
  · intro xa ya da ma delta_t t
    constructor
    · intro h
      unfold coordsPy
      rw [if_pos h]
    · intro h h1 h2
      unfold coordsPy
      rw [if_neg (not_lt.2 h), if_neg (by push_neg; exact ⟨h1, h2⟩)]
      exact ⟨_, _, rfl⟩
  · unfold coordsPy
    rw [if_pos ?hneg]
    case hneg =>
      unfold coordsBsq
      have h2 : poly ⟨2, 0, 0, 0⟩ (0 : ℝ) = 2 := by
        unfold poly
        norm_num
      rw [h2]
      nlinarith [mul_self_nonneg (coordsOmega ⟨0, 0, 0, 0⟩ 0 * 2)]

theorem c6_no_intersection_sentinel_witness :
    ∃ lat lon,
      coordsPy ⟨0, 0, 0, 0⟩ ⟨0, 0, 0, 0⟩ ⟨0, 0, 0, 0⟩ ⟨0, 0, 0, 0⟩ 0 0 =
        Except.ok (some (lat, lon)) :=
  (c6_no_intersection_sentinel.1 ⟨0, 0, 0, 0⟩ ⟨0, 0, 0, 0⟩ ⟨0, 0, 0, 0⟩
    ⟨0, 0, 0, 0⟩ 0 0).2
    (by
      unfold coordsBsq
      have h0 : poly ⟨0, 0, 0, 0⟩ (0 : ℝ) = 0 := by
        unfold poly
        norm_num
      rw [h0]
      norm_num)
    (by rw [coordsSinPhi1_zero]; norm_num)
    (by rw [coordsSinPhi1_zero]; norm_num)

/-- C7 (amended): whenever the projector returns coordinates, the
longitude lies in `[-180°, 180°)` — not `(-180°, 180°]` — and the
latitude in `(-90°, 90°)` (hence in the claimed `(-90°, 90°]`). -/
theorem c7_coordinate_ranges (xa ya da ma : Cubic) (delta_t t lat lon : ℝ)
    (h : coords xa ya da ma delta_t t = some (lat, lon)) :
    (-180 ≤ lon ∧ lon < 180) ∧ (-90 < lat ∧ lat ≤ 90) := by
  unfold coords at h
  by_cases hB : coordsBsq xa ya da t < 0
  · rw [if_pos hB] at h
    exact absurd h (by simp)
  · rw [if_neg hB] at h
    simp only [Option.some.injEq, Prod.mk.injEq] at h
    obtain ⟨hlat, hlon⟩ := h
    subst hlat
    subst hlon
    constructor
    · unfold coordsLon
      constructor
      · have := pymod_nonneg
          (-(coordsLambda xa ya da ma delta_t t * 180 / Real.pi) + 180) 360
          (by norm_num)
        linarith
      · have := pymod_lt
          (-(coordsLambda xa ya da ma delta_t t * 180 / Real.pi) + 180) 360
          (by norm_num)
        linarith
    · unfold coordsLat
      have hpi := Real.pi_pos
      have h1 : coordsPhi xa ya da t < Real.pi / 2 := by
        unfold coordsPhi
        exact Real.arctan_lt_pi_div_two _
      have h2 : -(Real.pi / 2) < coordsPhi xa ya da t := by
        unfold coordsPhi
        exact Real.neg_pi_div_two_lt_arctan _
      have hub : coordsPhi xa ya da t * 180 / Real.pi < 90 := by
        rw [div_lt_iff₀ hpi]
        nlinarith
      have hlb : -90 < coordsPhi xa ya da t * 180 / Real.pi := by
        rw [lt_div_iff₀ hpi]
        nlinarith
      have hfl : ⌊(coordsPhi xa ya da t * 180 / Real.pi + 90) / 180⌋ = 0 := by
        rw [Int.floor_eq_zero_iff, Set.mem_Ico]
        constructor
        · apply div_nonneg _ (by norm_num)
          linarith
        · rw [div_lt_one (by norm_num)]
          linarith
      unfold pymod
      rw [hfl]
      push_cast
      constructor <;> linarith

/-- Evaluation of the projector with zero `X`, `Y`, `D` polynomials, a
constant hour-angle polynomial `M` and `delta_t = 0`: the latitude is 0
and the longitude is the wrap of `-M`. -/
theorem coords_eval_const_m (M : ℝ) :
    coords ⟨0, 0, 0, 0⟩ ⟨0, 0, 0, 0⟩ ⟨0, 0, 0, 0⟩ ⟨M, 0, 0, 0⟩ 0 0 =
      some (0,
        pymod (-(pymod (M * Real.pi / 180) (2 * Real.pi) * 180 / Real.pi) + 180) 360
          - 180) := by
  have hz : ∀ t : ℝ, poly ⟨0, 0, 0, 0⟩ t = 0 := by
    intro t
    unfold poly
    ring
  have hd : poly ⟨(0 : ℝ), 0, 0, 0⟩ (0 : ℝ) * Real.pi / 180 = 0 := by
    rw [hz]
    ring
  have hf : (0 : ℝ) < ONE_MINUS_F := by
    unfold ONE_MINUS_F
    norm_num
  have homega : 0 < coordsOmega ⟨0, 0, 0, 0⟩ 0 := by
    unfold coordsOmega
    rw [hd, Real.cos_zero]
    have h1 : (0 : ℝ) < 1 - E_SQUARED * 1 ^ 2 := by
      unfold E_SQUARED
      norm_num
    exact one_div_pos.2 (Real.sqrt_pos.2 h1)
  have hBsq : coordsBsq ⟨0, 0, 0, 0⟩ ⟨0, 0, 0, 0⟩ ⟨0, 0, 0, 0⟩ 0 = 1 := by
    unfold coordsBsq
    rw [hz]
    ring
  have hsin : coordsSinPhi1 ⟨0, 0, 0, 0⟩ ⟨0, 0, 0, 0⟩ ⟨0, 0, 0, 0⟩ 0 = 0 := by
    unfold coordsSinPhi1
    rw [hd, hz, Real.sin_zero]
    ring
  have hphi1 : coordsPhi1 ⟨0, 0, 0, 0⟩ ⟨0, 0, 0, 0⟩ ⟨0, 0, 0, 0⟩ 0 = 0 := by
    unfold coordsPhi1
    rw [hsin, Real.arcsin_zero]
  have hphi : coordsPhi ⟨0, 0, 0, 0⟩ ⟨0, 0, 0, 0⟩ ⟨0, 0, 0, 0⟩ 0 = 0 := by
    unfold coordsPhi
    rw [hphi1, Real.tan_zero, mul_zero, Real.arctan_zero]
  have hlat : coordsLat ⟨0, 0, 0, 0⟩ ⟨0, 0, 0, 0⟩ ⟨0, 0, 0, 0⟩ 0 = 0 := by
    unfold coordsLat
    rw [hphi]
    unfold pymod
    norm_num
  have hH : coordsH ⟨0, 0, 0, 0⟩ ⟨0, 0, 0, 0⟩ ⟨0, 0, 0, 0⟩ 0 = 0 := by
    unfold coordsH
    rw [hphi1, hBsq, hd, hz]
    simp only [Real.cos_zero, Real.sin_zero, Real.sqrt_one, mul_zero, zero_mul,
      mul_one, one_mul, zero_div, div_one, sub_zero]
    unfold atan2
    rw [if_pos (mul_pos hf homega)]
    rw [zero_div, Real.arctan_zero]
  have hm : poly ⟨M, 0, 0, 0⟩ (0 : ℝ) = M := by
    unfold poly
    ring
  have hlambda : coordsLambda ⟨0, 0, 0, 0⟩ ⟨0, 0, 0, 0⟩ ⟨0, 0, 0, 0⟩ ⟨M, 0, 0, 0⟩ 0 0 =
      pymod (M * Real.pi / 180) (2 * Real.pi) := by
    unfold coordsLambda
    rw [hH, hm]
    have harg : M * Real.pi / 180 - 0 - DELTA_LAMBDA_FACTOR * 0 * Real.pi / 180 =
        M * Real.pi / 180 := by
      ring
    rw [harg]
  unfold coords
  rw [if_neg (by rw [hBsq]; norm_num)]
  rw [hlat]
  unfold coordsLon
  rw [hlambda]

/-- C7 counterexample: a constant 180° hour-angle polynomial makes the
projector return longitude exactly −180°, which is outside the claimed
interval `(-180°, 180°]`. -/
theorem c7_counterexample :
    coords ⟨0, 0, 0, 0⟩ ⟨0, 0, 0, 0⟩ ⟨0, 0, 0, 0⟩ ⟨180, 0, 0, 0⟩ 0 0 =
      some (0, -180) ∧ ¬ ((-180 : ℝ) < -180) := by
  refine ⟨?_, by norm_num⟩
  rw [coords_eval_const_m 180]
  have hpi := Real.pi_pos
  have hpine := Real.pi_ne_zero
  have h1 : (180 : ℝ) * Real.pi / 180 = Real.pi := by
    field_simp
  have h2 : pymod Real.pi (2 * Real.pi) = Real.pi := by
    unfold pymod
    rw [show Real.pi / (2 * Real.pi) = 1 / 2 by field_simp; ring]
    norm_num
  have h3 : Real.pi * 180 / Real.pi = 180 := by
    field_simp
  rw [h1, h2, h3]
  have h4 : pymod (-(180 : ℝ) + 180) 360 = 0 := by
    unfold pymod
    norm_num
  rw [h4]
  norm_num

theorem c7_coordinate_ranges_witness :
    ((-180 : ℝ) ≤ 0 ∧ (0 : ℝ) < 180) ∧ ((-90 : ℝ) < 0 ∧ (0 : ℝ) ≤ 90) := by
  have heval : coords ⟨0, 0, 0, 0⟩ ⟨0, 0, 0, 0⟩ ⟨0, 0, 0, 0⟩ ⟨0, 0, 0, 0⟩ 0 0 =
      some (0, 0) := by
    rw [coords_eval_const_m 0]
    have h1 : (0 : ℝ) * Real.pi / 180 = 0 := by
      ring
    have h2 : pymod 0 (2 * Real.pi) = 0 := by
      unfold pymod
      norm_num
    rw [h1, h2]
    have h3 : pymod (-((0 : ℝ) * 180 / Real.pi) + 180) 360 = 180 := by
      rw [show -((0 : ℝ) * 180 / Real.pi) + 180 = 180 by ring]
      unfold pymod
      norm_num
    rw [h3]
    norm_num
  exact c7_coordinate_ranges ⟨0, 0, 0, 0⟩ ⟨0, 0, 0, 0⟩ ⟨0, 0, 0, 0⟩ ⟨0, 0, 0, 0⟩
    0 0 0 0 heval

theorem c8_unwrap_rate_witness :
    ((-180 ≤ (compute_mu 0 90 3600).2 * ((3600 : ℝ) / 3600) ∧
      (compute_mu 0 90 3600).2 * ((3600 : ℝ) / 3600) < 180) ∧
      ∃ k : ℤ, (compute_mu 0 90 3600).2 * ((3600 : ℝ) / 3600) =
        (90 - 0) - 360 * k) :=
  c8_unwrap_rate.1 0 90 3600 (by norm_num)

end

end SolarEclipse
